import Mathlib

/-!
# Verification of the ZWO ASI camera marshalling layer (`asi.py`)

This file gives a shallow embedding, in Lean 4, of the pure
marshalling/translation core of the `asi.py` module of the `fast-zwo`
repository: the enumerations (`BayerPattern`, `ImgType`, `FlipStatus`,
`ErrorCode`, `ControlType`), the capability registry (`units_and_scale`,
`boolean_controls`), the control-value codec (`_parse_return_value`,
`_parse_input_value`), the device-info and control-caps parsers
(`_parse_info`, `_parse_bins`, `_parse_formats`, `_parse_caps`), the
frame-buffer allocator (`_image_array`), and the boundary-call error
translation (`_call_function`).

Modelling conventions:
* Python integers (and `ctypes.c_int` / `c_long` register values) are `ℤ`.
* Numeric scale factors written as floating-point literals in the source
  (`1e-6`, `0.1`) are modelled as exact rationals (`1/1000000`, `1/10`);
  all quantity arithmetic is over `ℚ`.
* `astropy` quantities are modelled as a rational magnitude paired with a
  unit tag (`Quantity`); a bare unit such as `u.adu` is the pair
  (scale 1, tag).
* Fallible Python code (a `ValueError` from an enum constructor, a
  `KeyError` from an enum name lookup, an `UnboundLocalError` from falling
  off the end of an `if`/`elif` chain, a `NameError`) is modelled with
  `Option`: `none` is "the call raised".
* `numpy.empty` is modelled by its shape/dtype contract (`np_empty`):
  it succeeds exactly when every dimension is nonnegative.
-/

/-- Unit tags for the `astropy.units` objects used by `asi.py`. -/
inductive AUnit where
  | pixel
  | um
  | electronPerAdu
  | bit
  | adu
  | second
  | percent
  | celsius
  deriving DecidableEq, Repr

/-- An `astropy` quantity: a rational magnitude with a unit tag. -/
structure Quantity where
  value : ℚ
  unit : AUnit
  deriving DecidableEq, Repr

/-- The possible results of `_parse_return_value`: a unit-tagged quantity, a
Python `bool`, the name of a `FlipStatus` member, or a plain integer. -/
inductive TypedValue where
  | quantity (value : ℚ) (unit : AUnit)
  | boolean (b : Bool)
  | flipName (s : String)
  | rawInt (n : ℤ)
  deriving DecidableEq, Repr

/-- The `FlipStatus` IntEnum of `asi.py` (NONE = 0, HORIZ = 1, VERT = 2,
BOTH = 3). -/
inductive FlipStatus where
  | NONE
  | HORIZ
  | VERT
  | BOTH
  deriving DecidableEq, Repr

/-- Integer value of a `FlipStatus` member (`int(member)` in Python). -/
def FlipStatus.toInt : FlipStatus → ℤ
  | .NONE => 0
  | .HORIZ => 1
  | .VERT => 2
  | .BOTH => 3

/-- `FlipStatus(value)` in Python: `none` models the `ValueError` raised for
an integer that is not a member value. -/
def FlipStatus.ofInt (n : ℤ) : Option FlipStatus :=
  if n = 0 then some .NONE
  else if n = 1 then some .HORIZ
  else if n = 2 then some .VERT
  else if n = 3 then some .BOTH
  else none

/-- `member.name` in Python. -/
def FlipStatus.name : FlipStatus → String
  | .NONE => "NONE"
  | .HORIZ => "HORIZ"
  | .VERT => "VERT"
  | .BOTH => "BOTH"

/-- `FlipStatus[name]` in Python: lookup by member name; `none` models the
`KeyError` raised for an unknown name. -/
def FlipStatus.ofName (s : String) : Option FlipStatus :=
  if s = "NONE" then some .NONE
  else if s = "HORIZ" then some .HORIZ
  else if s = "VERT" then some .VERT
  else if s = "BOTH" then some .BOTH
  else none

/-- The `BayerPattern` IntEnum of `asi.py` (RG = 0, BG = 1, GR = 2,
GB = 3). -/
inductive BayerPattern where
  | RG
  | BG
  | GR
  | GB
  deriving DecidableEq, Repr

/-- `BayerPattern(value)` in Python: `none` models the `ValueError` raised
for an integer outside {0,1,2,3}. -/
def BayerPattern.ofInt (n : ℤ) : Option BayerPattern :=
  if n = 0 then some .RG
  else if n = 1 then some .BG
  else if n = 2 then some .GR
  else if n = 3 then some .GB
  else none

/-- `member.name` for `BayerPattern`. -/
def BayerPattern.name : BayerPattern → String
  | .RG => "RG"
  | .BG => "BG"
  | .GR => "GR"
  | .GB => "GB"

/-- The `ImgType` IntEnum of `asi.py` (RAW8 = 0, RGB24 = 1, RAW16 = 2,
Y8 = 3, END = -1). -/
inductive ImgType where
  | RAW8
  | RGB24
  | RAW16
  | Y8
  | END
  deriving DecidableEq, Repr

/-- Integer value of an `ImgType` member. -/
def ImgType.toInt : ImgType → ℤ
  | .RAW8 => 0
  | .RGB24 => 1
  | .RAW16 => 2
  | .Y8 => 3
  | .END => -1

/-- `ImgType(value)` in Python: `none` models the `ValueError` raised for an
integer that is not a member value. -/
def ImgType.ofInt (n : ℤ) : Option ImgType :=
  if n = 0 then some .RAW8
  else if n = 1 then some .RGB24
  else if n = 2 then some .RAW16
  else if n = 3 then some .Y8
  else if n = -1 then some .END
  else none

/-- `member.name` for `ImgType`. -/
def ImgType.name : ImgType → String
  | .RAW8 => "RAW8"
  | .RGB24 => "RGB24"
  | .RAW16 => "RAW16"
  | .Y8 => "Y8"
  | .END => "END"

/-- The `units_and_scale` dict of `asi.py`, as a lookup from control-type
name to (scale factor, unit tag).  A bare unit (e.g. `u.adu`) is scale 1;
`1e-6 * u.second` is the exact rational `1/1000000`; `0.1 * u.Celsius` is
`1/10`. -/
def units_and_scale (control_type : String) : Option (ℚ × AUnit) :=
  if control_type = "AUTO_TARGET_BRIGHTNESS" then some (1, .adu)
  else if control_type = "AUTO_MAX_EXP" then some (1/1000000, .second)
  else if control_type = "BANDWIDTHOVERLOAD" then some (1, .percent)
  else if control_type = "COOLER_POWER_PERC" then some (1, .percent)
  else if control_type = "EXPOSURE" then some (1/1000000, .second)
  else if control_type = "OFFSET" then some (1, .adu)
  else if control_type = "TARGET_TEMP" then some (1, .celsius)
  else if control_type = "TEMPERATURE" then some (1/10, .celsius)
  else none

/-- The `boolean_controls` tuple of `asi.py`. -/
def boolean_controls : List String :=
  ["ANTI_DEW_HEATER", "COOLER_ON", "FAN_ON", "HARDWARE_BIN",
   "HIGH_SPEED_MODE", "MONO_BIN", "PATTERN_ADJUST"]

/-- `ASICamera._parse_return_value(value, control_type)`: applies the
control-type-specific conversion.  Unit-scaled controls multiply the raw
integer by the scale and attach the unit; boolean controls apply `bool`;
FLIP resolves against `FlipStatus` (raising, i.e. `none`, outside its
members); anything else falls through to the raw integer unchanged. -/
def _parse_return_value (value : ℤ) (control_type : String) : Option TypedValue :=
  match units_and_scale control_type with
  | some su => some (.quantity ((value : ℚ) * su.1) su.2)
  | none =>
    if boolean_controls.contains control_type then
      some (.boolean (decide (value ≠ 0)))
    else if control_type = "FLIP" then
      (FlipStatus.ofInt value).map (fun f => .flipName f.name)
    else
      some (.rawInt value)

/-- Modelled from the spec: the external helper `get_quantity_value` is
called by `_parse_input_value` and `_image_array` but is neither defined
under `src/` nor imported by `asi.py`; per the spec it "requires the input
be convertible to the registered unit" and converts the quantity to its
magnitude in that (possibly scaled) unit, i.e. divides the magnitude by the
scale factor.  A non-quantity input, or a quantity with a different unit
tag, is not convertible and raises (`none`). -/
def get_quantity_value (v : TypedValue) (scale : ℚ) (unit : AUnit) : Option ℚ :=
  match v with
  | .quantity q u => if u = unit then some (q / scale) else none
  | _ => none

/-- Python `int()` applied to a rational magnitude: truncation toward
zero. -/
def int_trunc (q : ℚ) : ℤ :=
  if 0 ≤ q then ⌊q⌋ else ⌈q⌉

/-- `ASICamera._parse_input_value(value, control_type)`: converts a typed
value back to the raw `c_long` register integer.  Unit-scaled controls are
converted via `get_quantity_value` then truncated by `int()`; FLIP looks the
name up in `FlipStatus` and takes its ordinal; otherwise `int()` is applied
directly (an integer passes through, a `bool` becomes 0/1, anything else
raises). -/
def _parse_input_value (value : TypedValue) (control_type : String) : Option ℤ :=
  match units_and_scale control_type with
  | some su => (get_quantity_value value su.1 su.2).map int_trunc
  | none =>
    if control_type = "FLIP" then
      match value with
      | .flipName s => (FlipStatus.ofName s).map FlipStatus.toInt
      | _ => none
    else
      match value with
      | .rawInt n => some n
      | .boolean b => some (if b then 1 else 0)
      | _ => none

/-- Element types used by `_image_array` (`np.uint8`, `np.uint16`). -/
inductive DTy where
  | uint8
  | uint16
  deriving DecidableEq, Repr

/-- The shape/dtype description of a numpy array. -/
structure NpArraySpec where
  shape : List ℤ
  dtype : DTy
  deriving DecidableEq, Repr

/-- `np.empty(shape, dtype, order='C')`, by its shape contract: succeeds
exactly when every dimension is nonnegative (numpy raises on negative
dimensions). -/
def np_empty (shape : List ℤ) (dtype : DTy) : Option NpArraySpec :=
  if shape.all (fun d => decide (0 ≤ d)) then some ⟨shape, dtype⟩ else none

/-- `ASICamera._image_array(width, height, image_type)`: allocates a numpy
array for one frame.  Width and height are already converted to plain pixel
counts (`int(get_quantity_value(width, unit=u.pixel))`, the identity on
integer inputs).  There is no `else` branch in the source: an `image_type`
matching none of the four valid names leaves `image_array` unbound and the
`return` raises `UnboundLocalError`, modelled as `none`. -/
def _image_array (width height : ℤ) (image_type : String) : Option NpArraySpec :=
  if image_type = "RAW8" ∨ image_type = "Y8" then
    np_empty [height, width] .uint8
  else if image_type = "RAW16" then
    np_empty [height, width] .uint16
  else if image_type = "RGB24" then
    np_empty [3, height, width] .uint8
  else
    none

/-- `ASICamera._parse_bins(supported_bins)`:
`tuple(int(b) for b in supported_bins if b != 0)` — keeps every nonzero
slot of the 16-slot array, in source order (a filter, not a scan that stops
at the first zero). -/
def _parse_bins (supported_bins : List ℤ) : List ℤ :=
  supported_bins.filter (fun b => decide (b ≠ 0))

/-- `ASICamera._parse_formats(supported_formats)`: resolves each slot
against `ImgType` (raising, i.e. `none`, on an unresolvable slot), stopping
at — and excluding — the first END sentinel; slots after END are never
examined. -/
def _parse_formats : List ℤ → Option (List String)
  | [] => some []
  | x :: rest =>
    match ImgType.ofInt x with
    | none => none
    | some f =>
      if f = ImgType.END then some []
      else (_parse_formats rest).map (fun tl => f.name :: tl)

/-- The `CameraInfo` ctypes structure of `asi.py` (field order and meaning
as in the source; the 64-byte name is modelled as its decoded string and
the `unused` padding is dropped). -/
structure CameraInfo where
  name : String
  camera_ID : ℤ
  max_height : ℤ
  max_width : ℤ
  is_color_camera : ℤ
  bayer_pattern : ℤ
  supported_bins : List ℤ
  supported_video_format : List ℤ
  pixel_size : ℚ
  has_mechanical_shutter : ℤ
  has_ST4_port : ℤ
  has_cooler : ℤ
  is_USB3_host : ℤ
  is_USB3_camera : ℤ
  e_per_adu : ℚ
  bit_depth : ℤ
  is_trigger_camera : ℤ
  deriving DecidableEq, Repr

/-- The dict built by `ASICamera._parse_info`, as a record with one field
per dict key. -/
structure PythonicInfo where
  name : String
  camera_ID : ℤ
  max_height : Quantity
  max_width : Quantity
  is_color_camera : Bool
  bayer_pattern : String
  supported_bins : List ℤ
  supported_video_format : List String
  pixel_size : Quantity
  has_mechanical_shutter : Bool
  has_ST4_port : Bool
  has_cooler : Bool
  is_USB3_host : Bool
  is_USB3_camera : Bool
  e_per_adu : Quantity
  bit_depth : Quantity
  is_trigger_camera : Bool
  deriving DecidableEq, Repr

/-- `ASICamera._parse_info(camera_info)`: builds the pythonic dict.  The
Bayer pattern is resolved through `BayerPattern(...)` and the format list
through `_parse_formats`; either raising (`none`) aborts the decode with no
partial result. -/
def _parse_info (ci : CameraInfo) : Option PythonicInfo :=
  (BayerPattern.ofInt ci.bayer_pattern).bind fun bp =>
  (_parse_formats ci.supported_video_format).map fun formats =>
  { name := ci.name
    camera_ID := ci.camera_ID
    max_height := ⟨(ci.max_height : ℚ), .pixel⟩
    max_width := ⟨(ci.max_width : ℚ), .pixel⟩
    is_color_camera := decide (ci.is_color_camera ≠ 0)
    bayer_pattern := bp.name
    supported_bins := _parse_bins ci.supported_bins
    supported_video_format := formats
    pixel_size := ⟨ci.pixel_size, .um⟩
    has_mechanical_shutter := decide (ci.has_mechanical_shutter ≠ 0)
    has_ST4_port := decide (ci.has_ST4_port ≠ 0)
    has_cooler := decide (ci.has_cooler ≠ 0)
    is_USB3_host := decide (ci.is_USB3_host ≠ 0)
    is_USB3_camera := decide (ci.is_USB3_camera ≠ 0)
    e_per_adu := ⟨ci.e_per_adu, .electronPerAdu⟩
    bit_depth := ⟨(ci.bit_depth : ℚ), .bit⟩
    is_trigger_camera := decide (ci.is_trigger_camera ≠ 0) }

/-- `ControlType(value).name` in Python.  `ControlType` is an IntEnum that
is not `@enum.unique`: `BRIGHTNESS = OFFSET` and
`AUTO_MAX_BRIGHTNESS = AUTO_TARGET_BRIGHTNESS` are aliases, so value 5
resolves to the canonical (first-defined) member name OFFSET and value 12
to AUTO_TARGET_BRIGHTNESS.  `none` models the `ValueError` for a value that
is no member. -/
def ControlType.ofInt (n : ℤ) : Option String :=
  if n = 0 then some "GAIN"
  else if n = 1 then some "EXPOSURE"
  else if n = 2 then some "GAMMA"
  else if n = 3 then some "WB_R"
  else if n = 4 then some "WB_B"
  else if n = 5 then some "OFFSET"
  else if n = 6 then some "BANDWIDTHOVERLOAD"
  else if n = 7 then some "OVERCLOCK"
  else if n = 8 then some "TEMPERATURE"
  else if n = 9 then some "FLIP"
  else if n = 10 then some "AUTO_MAX_GAIN"
  else if n = 11 then some "AUTO_MAX_EXP"
  else if n = 12 then some "AUTO_TARGET_BRIGHTNESS"
  else if n = 13 then some "HARDWARE_BIN"
  else if n = 14 then some "HIGH_SPEED_MODE"
  else if n = 15 then some "COOLER_POWER_PERC"
  else if n = 16 then some "TARGET_TEMP"
  else if n = 17 then some "COOLER_ON"
  else if n = 18 then some "MONO_BIN"
  else if n = 19 then some "FAN_ON"
  else if n = 20 then some "PATTERN_ADJUST"
  else if n = 21 then some "ANTI_DEW_HEATER"
  else none

/-- `ControlType[name].value` in Python: integer value of each member name,
aliases included (`BRIGHTNESS = OFFSET = 5`,
`AUTO_MAX_BRIGHTNESS = AUTO_TARGET_BRIGHTNESS = 12`). -/
def ControlType.value (s : String) : Option ℤ :=
  if s = "GAIN" then some 0
  else if s = "EXPOSURE" then some 1
  else if s = "GAMMA" then some 2
  else if s = "WB_R" then some 3
  else if s = "WB_B" then some 4
  else if s = "OFFSET" then some 5
  else if s = "BANDWIDTHOVERLOAD" then some 6
  else if s = "OVERCLOCK" then some 7
  else if s = "TEMPERATURE" then some 8
  else if s = "FLIP" then some 9
  else if s = "AUTO_MAX_GAIN" then some 10
  else if s = "AUTO_MAX_EXP" then some 11
  else if s = "AUTO_TARGET_BRIGHTNESS" then some 12
  else if s = "HARDWARE_BIN" then some 13
  else if s = "HIGH_SPEED_MODE" then some 14
  else if s = "COOLER_POWER_PERC" then some 15
  else if s = "TARGET_TEMP" then some 16
  else if s = "COOLER_ON" then some 17
  else if s = "MONO_BIN" then some 18
  else if s = "FAN_ON" then some 19
  else if s = "PATTERN_ADJUST" then some 20
  else if s = "ANTI_DEW_HEATER" then some 21
  else if s = "BRIGHTNESS" then some 5
  else if s = "AUTO_MAX_BRIGHTNESS" then some 12
  else none

/-- The `ControlCaps` ctypes structure of `asi.py` (texts as decoded
strings, padding dropped). -/
structure ControlCaps where
  name : String
  description : String
  max_value : ℤ
  min_value : ℤ
  default_value : ℤ
  is_auto_supported : ℤ
  is_writable : ℤ
  control_type : ℤ
  deriving DecidableEq, Repr

/-- The dict built by `ASICamera._parse_caps`, as a record. -/
structure ControlInfo where
  name : String
  description : String
  max_value : TypedValue
  min_value : TypedValue
  default_value : TypedValue
  is_auto_supported : Bool
  is_writable : Bool
  control_type : String
  deriving DecidableEq, Repr

/-- `ASICamera._parse_caps(control_caps)`: resolves the raw control-type
integer through `ControlType(...).name`, then interprets max/min/default
through `_parse_return_value` with that name. -/
def _parse_caps (cc : ControlCaps) : Option ControlInfo :=
  (ControlType.ofInt cc.control_type).bind fun ct =>
  (_parse_return_value cc.max_value ct).bind fun mx =>
  (_parse_return_value cc.min_value ct).bind fun mn =>
  (_parse_return_value cc.default_value ct).map fun df =>
  { name := cc.name
    description := cc.description
    max_value := mx
    min_value := mn
    default_value := df
    is_auto_supported := decide (cc.is_auto_supported ≠ 0)
    is_writable := decide (cc.is_writable ≠ 0)
    control_type := ct }

/-- `ErrorCode(value).name` in Python: the name of each member of the
`ErrorCode` IntEnum of `asi.py`; `none` models the `ValueError` raised for
an integer that is no member. -/
def ErrorCode.ofInt (n : ℤ) : Option String :=
  if n = 0 then some "SUCCESS"
  else if n = 1 then some "INVALID_INDEX"
  else if n = 2 then some "INVALID_ID"
  else if n = 3 then some "INVALID_CONTROL_TYPE"
  else if n = 4 then some "CAMERA_CLOSED"
  else if n = 5 then some "CAMERA_REMOVED"
  else if n = 6 then some "INVALID_PATH"
  else if n = 7 then some "INVALID_FILEFORMAT"
  else if n = 8 then some "INVALID_SIZE"
  else if n = 9 then some "INVALID_IMGTYPE"
  else if n = 10 then some "OUTOF_BOUNDARY"
  else if n = 11 then some "TIMEOUT"
  else if n = 12 then some "INVALID_SEQUENCE"
  else if n = 13 then some "BUFFER_TOO_SMALL"
  else if n = 14 then some "VIDEO_MODE_ACTIVE"
  else if n = 15 then some "EXPOSURE_IN_PROGRESS"
  else if n = 16 then some "GENERAL_ERROR"
  else if n = 17 then some "INVALID_MODE"
  else if n = 18 then some "END"
  else none

/-- Outcome of `ASICamera._call_function`: normal return, the
`RuntimeError` raised with its message, or the `ValueError` raised by
`ErrorCode(error_code)` itself while building that message. -/
inductive CallResult where
  | success
  | failure (msg : String)
  | resolutionError
  deriving DecidableEq, Repr

/-- `ASICamera._call_function(function_name, camera_ID, *args)` after the
boundary call returned `error_code`: a zero code returns normally; a
nonzero code is formatted as "Error calling {name}: {code name}" and
raised; resolving a code that is no `ErrorCode` member raises `ValueError`
before any message is built. -/
def _call_function (function_name : String) (error_code : ℤ) : CallResult :=
  if error_code = 0 then .success
  else
    match ErrorCode.ofInt error_code with
    | some nm => .failure ("Error calling " ++ function_name ++ ": " ++ nm)
    | none => .resolutionError

/-- A sample raw device-info record whose Bayer-pattern field holds the
out-of-range ordinal 7 and whose other fields are well-formed. -/
def badBayerInfo : CameraInfo where
  name := "ZWO ASI178MM"
  camera_ID := 0
  max_height := 2080
  max_width := 3096
  is_color_camera := 0
  bayer_pattern := 7
  supported_bins := [1, 2, 0, 0, 0, 0, 0, 0, 0, 0, 0, 0, 0, 0, 0, 0]
  supported_video_format := [0, -1, -1, -1, -1, -1, -1, -1]
  pixel_size := 2
  has_mechanical_shutter := 0
  has_ST4_port := 1
  has_cooler := 0
  is_USB3_host := 1
  is_USB3_camera := 1
  e_per_adu := 2
  bit_depth := 14
  is_trigger_camera := 0

/-- A sample raw device-info record whose format array holds the unknown
value 77 before its END sentinel and whose other fields are well-formed. -/
def badFormatInfo : CameraInfo where
  name := "ZWO ASI178MM"
  camera_ID := 0
  max_height := 2080
  max_width := 3096
  is_color_camera := 0
  bayer_pattern := 0
  supported_bins := [1, 2, 0, 0, 0, 0, 0, 0, 0, 0, 0, 0, 0, 0, 0, 0]
  supported_video_format := [0, 77, -1, -1, -1, -1, -1, -1]
  pixel_size := 2
  has_mechanical_shutter := 0
  has_ST4_port := 1
  has_cooler := 0
  is_USB3_host := 1
  is_USB3_camera := 1
  e_per_adu := 2
  bit_depth := 14
  is_trigger_camera := 0

/-- A sample raw control-capability record carrying control-type 5. -/
def brightnessCaps : ControlCaps where
  name := "Brightness"
  description := "Pixel brightness offset"
  max_value := 100
  min_value := 0
  default_value := 10
  is_auto_supported := 1
  is_writable := 1
  control_type := 5

/-! ## Helper lemmas -/

/-- `int()` truncation is the identity on integer-valued rationals. -/
theorem int_trunc_intCast (n : ℤ) : int_trunc (n : ℚ) = n := by
  unfold int_trunc
  split <;> simp

/-- Resolving the integer value of an `ImgType` member recovers the
member. -/
theorem ImgType.ofInt_toInt (f : ImgType) : ImgType.ofInt f.toInt = some f := by
  cases f <;> decide

/-- `_parse_formats` on a list of valid non-END member values followed by
an END sentinel yields exactly the names of the prefix, in order. -/
theorem parse_formats_stops_at_end (fs : List ImgType) (post : List ℤ)
    (hfs : ImgType.END ∉ fs) :
    _parse_formats (fs.map ImgType.toInt ++ (-1) :: post) = some (fs.map ImgType.name) := by
  induction fs with
  | nil => simp [_parse_formats, ImgType.ofInt]
  | cons f fs ih =>
    rw [List.mem_cons, not_or] at hfs
    have hf : f ≠ ImgType.END := Ne.symm hfs.1
    simp [_parse_formats, ImgType.ofInt_toInt, hf, ih hfs.2]

/-- `_parse_formats` raises when a slot before any END sentinel resolves to
no `ImgType` member. -/
theorem parse_formats_bad_slot (pre : List ImgType) (x : ℤ) (post : List ℤ)
    (hpre : ImgType.END ∉ pre) (hx : ImgType.ofInt x = none) :
    _parse_formats (pre.map ImgType.toInt ++ x :: post) = none := by
  induction pre with
  | nil => simp [_parse_formats, hx]
  | cons f fs ih =>
    rw [List.mem_cons, not_or] at hpre
    have hf : f ≠ ImgType.END := Ne.symm hpre.1
    simp [_parse_formats, ImgType.ofInt_toInt, hf, ih hpre.2]

/-! ## Claim theorems -/

/-- C9: decoding raw register value 215 for the TEMPERATURE control
(scaled by 0.1 degree Celsius per raw unit) yields exactly 21.5 °C, and
the percentage-valued controls (BANDWIDTHOVERLOAD, COOLER_POWER_PERC) pass
their raw integer through unscaled, tagged only with the percent unit. -/
theorem c9_temperature_scale_percent_passthrough :
    _parse_return_value 215 "TEMPERATURE"
      = some (TypedValue.quantity (43/2) AUnit.celsius) ∧
    (∀ r : ℤ, _parse_return_value r "BANDWIDTHOVERLOAD"
      = some (TypedValue.quantity (r : ℚ) AUnit.percent)) ∧
    (∀ r : ℤ, _parse_return_value r "COOLER_POWER_PERC"
      = some (TypedValue.quantity (r : ℚ) AUnit.percent)) := by
  refine ⟨?_, fun r => ?_, fun r => ?_⟩
  · simp [_parse_return_value, units_and_scale]
    norm_num
  · simp [_parse_return_value, units_and_scale]
  · simp [_parse_return_value, units_and_scale]

/-- C2: raw exposure register value 5000000 (microseconds, scale 1e-6)
decodes to the quantity 5.0 seconds and encoding 5.0 seconds yields raw
5000000; for every unit-scaled control with positive scale, encode after
decode is the identity on all raw integers, and decode after encode is the
identity on every quantity whose magnitude is an integer multiple of the
scale (the values legitimately producible, given truncation toward zero on
encode). -/
theorem c2_codec_round_trip (t tb tr : String) (s : ℚ) (u : AUnit)
    (h : units_and_scale t = some (s, u)) (hs : 0 < s)
    (hbmem : tb ∈ boolean_controls) (hbu : units_and_scale tb = none)
    (hbf : tb ≠ "FLIP")
    (hru : units_and_scale tr = none) (hrb : tr ∉ boolean_controls)
    (hrf : tr ≠ "FLIP") :
    _parse_return_value 5000000 "EXPOSURE"
        = some (TypedValue.quantity 5 AUnit.second) ∧
    _parse_input_value (TypedValue.quantity 5 AUnit.second) "EXPOSURE"
        = some 5000000 ∧
    (∀ r : ℤ, (_parse_return_value r t).bind
        (fun v => _parse_input_value v t) = some r) ∧
    (∀ k : ℤ, (_parse_input_value (TypedValue.quantity ((k : ℚ) * s) u) t).bind
        (fun raw => _parse_return_value raw t)
      = some (TypedValue.quantity ((k : ℚ) * s) u)) ∧
    (∀ r : ℤ, r = 0 ∨ r = 1 → (_parse_return_value r tb).bind
        (fun v => _parse_input_value v tb) = some r) ∧
    (∀ b : Bool, (_parse_input_value (TypedValue.boolean b) tb).bind
        (fun raw => _parse_return_value raw tb) = some (TypedValue.boolean b)) ∧
    (∀ r : ℤ, (_parse_return_value r tr).bind
        (fun v => _parse_input_value v tr) = some r) ∧
    (∀ n : ℤ, (_parse_input_value (TypedValue.rawInt n) tr).bind
        (fun raw => _parse_return_value raw tr) = some (TypedValue.rawInt n)) ∧
    (∀ r : ℤ, r ∈ ([0, 1, 2, 3] : List ℤ) →
      (_parse_return_value r "FLIP").bind
        (fun v => _parse_input_value v "FLIP") = some r) ∧
    (∀ f : FlipStatus, (_parse_input_value (TypedValue.flipName f.name) "FLIP").bind
        (fun raw => _parse_return_value raw "FLIP")
      = some (TypedValue.flipName f.name)) := by
  have hs0 : s ≠ 0 := ne_of_gt hs
  refine ⟨?_, ?_, fun r => ?_, fun k => ?_, fun r hr => ?_, fun b => ?_,
    fun r => ?_, fun n => ?_, fun r hr => ?_, fun f => ?_⟩
  · simp [_parse_return_value, units_and_scale]; norm_num
  · simp [_parse_input_value, units_and_scale, get_quantity_value, int_trunc]; norm_num
  · have hdiv : (r : ℚ) * s / s = (r : ℚ) := mul_div_cancel_right₀ _ hs0
    simp [_parse_return_value, h, _parse_input_value, get_quantity_value,
      hdiv, int_trunc_intCast]
  · have hdiv : (k : ℚ) * s / s = (k : ℚ) := mul_div_cancel_right₀ _ hs0
    simp [_parse_input_value, h, get_quantity_value, _parse_return_value,
      hdiv, int_trunc_intCast]
  · rcases hr with rfl | rfl <;>
      simp [_parse_return_value, _parse_input_value, hbu, hbmem, hbf]
  · cases b <;>
      simp [_parse_return_value, _parse_input_value, hbu, hbmem, hbf]
  · simp [_parse_return_value, _parse_input_value, hru, hrb, hrf]
  · simp [_parse_return_value, _parse_input_value, hru, hrb, hrf]
  · simp only [List.mem_cons, List.not_mem_nil, or_false] at hr
    rcases hr with rfl | rfl | rfl | rfl <;> decide
  · cases f <;> decide

/-- Witness for C2 at the EXPOSURE, COOLER_ON and GAIN controls. -/
theorem c2_codec_round_trip_witness :
    units_and_scale "EXPOSURE" = some (1/1000000, AUnit.second) ∧
    (0 : ℚ) < 1/1000000 ∧
    "COOLER_ON" ∈ boolean_controls ∧
    units_and_scale "COOLER_ON" = none ∧
    "GAIN" ∉ boolean_controls ∧
    units_and_scale "GAIN" = none ∧
    (_parse_return_value 3 "EXPOSURE").bind
      (fun v => _parse_input_value v "EXPOSURE") = some 3 ∧
    (_parse_return_value 1 "COOLER_ON").bind
      (fun v => _parse_input_value v "COOLER_ON") = some 1 ∧
    (_parse_return_value 42 "GAIN").bind
      (fun v => _parse_input_value v "GAIN") = some 42 := by
  have main := c2_codec_round_trip "EXPOSURE" "COOLER_ON" "GAIN" (1/1000000)
    AUnit.second (by simp [units_and_scale]) (by norm_num) (by decide)
    (by decide) (by decide) (by decide) (by decide) (by decide)
  exact ⟨by simp [units_and_scale], by norm_num, by decide, by decide, by decide,
    by decide, main.2.2.1 3, main.2.2.2.2.1 1 (Or.inr rfl), main.2.2.2.2.2.2.1 42⟩

/-- C7: decoding a raw value for the FLIP control fails for every integer
outside {0,1,2,3}; for each member value it succeeds with the
corresponding flip-state name (NONE, HORIZ, VERT, BOTH) and encoding that
name back yields the original integer. -/
theorem c7_flip_decode (r : ℤ) :
    (r ∉ ([0, 1, 2, 3] : List ℤ) → _parse_return_value r "FLIP" = none) ∧
    (r ∈ ([0, 1, 2, 3] : List ℤ) →
      (_parse_return_value r "FLIP").bind
        (fun v => _parse_input_value v "FLIP") = some r) ∧
    _parse_return_value 0 "FLIP" = some (TypedValue.flipName "NONE") ∧
    _parse_return_value 1 "FLIP" = some (TypedValue.flipName "HORIZ") ∧
    _parse_return_value 2 "FLIP" = some (TypedValue.flipName "VERT") ∧
    _parse_return_value 3 "FLIP" = some (TypedValue.flipName "BOTH") := by
  refine ⟨fun hr => ?_, fun hr => ?_, by decide, by decide, by decide, by decide⟩
  · simp only [List.mem_cons, List.not_mem_nil, or_false, not_or] at hr
    obtain ⟨h0, h1, h2, h3⟩ := hr
    simp [_parse_return_value, units_and_scale, boolean_controls,
      FlipStatus.ofInt, h0, h1, h2, h3]
  · simp only [List.mem_cons, List.not_mem_nil, or_false] at hr
    rcases hr with rfl | rfl | rfl | rfl <;> decide

/-- Witness for C7 at the out-of-range raw value 5 and the member value 2. -/
theorem c7_flip_decode_witness :
    ((5 : ℤ) ∉ ([0, 1, 2, 3] : List ℤ) ∧ _parse_return_value 5 "FLIP" = none) ∧
    ((2 : ℤ) ∈ ([0, 1, 2, 3] : List ℤ) ∧
      (_parse_return_value 2 "FLIP").bind
        (fun v => _parse_input_value v "FLIP") = some 2) :=
  ⟨⟨by decide, (c7_flip_decode 5).1 (by decide)⟩,
   ⟨by decide, (c7_flip_decode 2).2.1 (by decide)⟩⟩

/-- C1 counterexample: GAIN is neither unit-scaled nor boolean nor FLIP,
yet decoding raw 42 for it does not fail with any error — it returns the
raw integer unchanged. -/
theorem c1_counterexample :
    _parse_return_value 42 "GAIN" ≠ none ∧
    _parse_return_value 42 "GAIN" = some (TypedValue.rawInt 42) := by
  constructor <;> decide

/-- C1 amended: for every control-type identifier that is not unit-scaled,
not a boolean control, and not FLIP, decoding returns the raw integer
unchanged — the silent RawInteger fallback of the final `else` branch; no
"unsupported control" failure occurs. -/
theorem c1_unknown_control_raw_fallback (t : String) (v : ℤ)
    (hu : units_and_scale t = none)
    (hb : t ∉ boolean_controls)
    (hf : t ≠ "FLIP") :
    _parse_return_value v t = some (TypedValue.rawInt v) := by
  simp [_parse_return_value, hu, hb, hf]

/-- Witness for C1 at the GAIN control and raw value 7. -/
theorem c1_unknown_control_raw_fallback_witness :
    units_and_scale "GAIN" = none ∧
    "GAIN" ∉ boolean_controls ∧
    "GAIN" ≠ "FLIP" ∧
    _parse_return_value 7 "GAIN" = some (TypedValue.rawInt 7) :=
  ⟨by decide, by decide, by decide,
   c1_unknown_control_raw_fallback "GAIN" 7 (by decide) (by decide) (by decide)⟩

/-- C3 counterexample: width 0 is not a positive pixel count, yet the
allocator does not fail — it returns a (10, 0)-shaped 8-bit buffer, so no
positivity validation takes place. -/
theorem c3_counterexample :
    _image_array 0 10 "RAW8" = some ⟨[10, 0], DTy.uint8⟩ := by decide

/-- C3 amended: the allocator performs no positivity validation (any
nonnegative geometry is accepted, zero included); for any format argument
outside the four valid names RAW8, Y8, RAW16, RGB24 — in particular END —
it produces no buffer at all (the source falls off the `if`/`elif` chain
and raises `UnboundLocalError`), rather than an "unsupported image type"
error. -/
theorem c3_image_array_no_validation (w h : ℤ) (t : String)
    (h8 : t ≠ "RAW8") (hy : t ≠ "Y8") (h16 : t ≠ "RAW16") (h24 : t ≠ "RGB24")
    (hh : 0 ≤ h) :
    _image_array w h t = none ∧
    _image_array 0 h "RAW8" = some ⟨[h, 0], DTy.uint8⟩ := by
  constructor
  · simp [_image_array, h8, hy, h16, h24]
  · simp [_image_array, np_empty, hh]

/-- Witness for C3 at format END and geometry (5, 10). -/
theorem c3_image_array_no_validation_witness :
    ("END" ≠ "RAW8" ∧ "END" ≠ "Y8" ∧ "END" ≠ "RAW16" ∧ "END" ≠ "RGB24" ∧
      (0 : ℤ) ≤ 10) ∧
    _image_array 5 10 "END" = none ∧
    _image_array 0 10 "RAW8" = some ⟨[10, 0], DTy.uint8⟩ :=
  ⟨⟨by decide, by decide, by decide, by decide, by decide⟩,
   (c3_image_array_no_validation 5 10 "END" (by decide) (by decide) (by decide)
     (by decide) (by decide)).1,
   (c3_image_array_no_validation 5 10 "END" (by decide) (by decide) (by decide)
     (by decide) (by decide)).2⟩

/-- C4: for every positive width and height, RAW8 and Y8 allocate one
8-bit plane of shape (h, w); RAW16 one 16-bit plane of shape (h, w); and
RGB24 three 8-bit planes of shape (3, h, w). -/
theorem c4_image_array_shapes (w h : ℤ) (hw : 0 < w) (hh : 0 < h) :
    _image_array w h "RAW8" = some ⟨[h, w], DTy.uint8⟩ ∧
    _image_array w h "Y8" = some ⟨[h, w], DTy.uint8⟩ ∧
    _image_array w h "RAW16" = some ⟨[h, w], DTy.uint16⟩ ∧
    _image_array w h "RGB24" = some ⟨[3, h, w], DTy.uint8⟩ := by
  refine ⟨?_, ?_, ?_, ?_⟩ <;> simp [_image_array, np_empty, hw.le, hh.le]

/-- Witness for C4 at geometry (5, 4). -/
theorem c4_image_array_shapes_witness :
    (0 : ℤ) < 5 ∧ (0 : ℤ) < 4 ∧
    _image_array 5 4 "RGB24" = some ⟨[3, 4, 5], DTy.uint8⟩ ∧
    _image_array 5 4 "RAW16" = some ⟨[4, 5], DTy.uint16⟩ :=
  ⟨by decide, by decide,
   (c4_image_array_shapes 5 4 (by decide) (by decide)).2.2.2,
   (c4_image_array_shapes 5 4 (by decide) (by decide)).2.2.1⟩

/-- C5 counterexample: with binning slots [1,2,0,4,0,...] the parse yields
(1,2,4) — the nonzero slot after the first zero is kept — and not the
(1,2) that "slots strictly before the first zero slot" requires. -/
theorem c5_counterexample :
    _parse_bins [1, 2, 0, 4, 0, 0, 0, 0, 0, 0, 0, 0, 0, 0, 0, 0] = [1, 2, 4] ∧
    ([1, 2, 4] : List ℤ) ≠ [1, 2] := by
  constructor <;> decide

/-- C5 amended: the binning parse keeps every nonzero slot in source order
(a filter — a zero slot is skipped, not treated as a terminator), while
the format parse does stop at (and exclude) the first END sentinel; the
two concrete examples of the claim hold as stated. -/
theorem c5_parse_lists (pre post : List ℤ) (fs : List ImgType)
    (hfs : ImgType.END ∉ fs) :
    _parse_bins [1, 2, 4, 8, 0, 0, 0, 0, 0, 0, 0, 0, 0, 0, 0, 0] = [1, 2, 4, 8] ∧
    _parse_formats [0, 2, -1, -1, -1, -1, -1, -1] = some ["RAW8", "RAW16"] ∧
    _parse_bins (pre ++ 0 :: post) = _parse_bins pre ++ _parse_bins post ∧
    _parse_formats (fs.map ImgType.toInt ++ (-1) :: post)
      = some (fs.map ImgType.name) := by
  refine ⟨by decide, by decide, ?_, parse_formats_stops_at_end fs post hfs⟩
  simp [_parse_bins]

/-- Witness for C5 with prefix [1,2], suffix [4] and formats
[RAW8, RAW16]. -/
theorem c5_parse_lists_witness :
    ImgType.END ∉ [ImgType.RAW8, ImgType.RAW16] ∧
    _parse_bins ([1, 2] ++ 0 :: [4]) = _parse_bins [1, 2] ++ _parse_bins [4] ∧
    _parse_formats ([ImgType.RAW8, ImgType.RAW16].map ImgType.toInt ++ (-1) :: [4])
      = some ([ImgType.RAW8, ImgType.RAW16].map ImgType.name) :=
  ⟨by decide,
   (c5_parse_lists [1, 2] [4] [ImgType.RAW8, ImgType.RAW16] (by decide)).2.2.1,
   (c5_parse_lists [1, 2] [4] [ImgType.RAW8, ImgType.RAW16] (by decide)).2.2.2⟩

/-- C6: device-info decode fails — returning no descriptor, with no
default substituted — whenever the Bayer-pattern field resolves to no
known pattern, and whenever a slot before the first END sentinel of the
format array resolves to no known pixel format. -/
theorem c6_parse_info_rejects_bad_enums (ci : CameraInfo)
    (pre : List ImgType) (x : ℤ) (post : List ℤ) :
    (BayerPattern.ofInt ci.bayer_pattern = none → _parse_info ci = none) ∧
    (ci.supported_video_format = pre.map ImgType.toInt ++ x :: post →
      ImgType.END ∉ pre → ImgType.ofInt x = none → _parse_info ci = none) := by
  constructor
  · intro hb
    simp [_parse_info, hb]
  · intro hv hpre hx
    have hfmt : _parse_formats ci.supported_video_format = none := by
      rw [hv]
      exact parse_formats_bad_slot pre x post hpre hx
    simp [_parse_info, hfmt]

/-- Witness for C6: a record with Bayer ordinal 7 (and an otherwise valid
format list) fails to decode, as does a record whose format array holds the
unknown value 77 before its END sentinel. -/
theorem c6_parse_info_rejects_bad_enums_witness :
    BayerPattern.ofInt badBayerInfo.bayer_pattern = none ∧
    _parse_info badBayerInfo = none ∧
    ImgType.ofInt 77 = none ∧
    _parse_info badFormatInfo = none :=
  ⟨by decide,
   (c6_parse_info_rejects_bad_enums badBayerInfo [] 0 []).1 (by decide),
   by decide,
   (c6_parse_info_rejects_bad_enums badFormatInfo [ImgType.RAW8] 77
      [-1, -1, -1, -1, -1, -1]).2 (by decide) (by decide) (by decide)⟩

/-- C8 counterexample: raw code 99 matches no ErrorCode member; instead of
being treated as a GENERAL_ERROR-equivalent, resolution itself fails — the
ValueError from ErrorCode(99) pre-empts any error message. -/
theorem c8_counterexample :
    ErrorCode.ofInt 99 = none ∧
    _call_function "ASIOpenCamera" 99 = CallResult.resolutionError := by
  constructor <;> decide

/-- C8 amended: error-code resolution is not total — a raw code matching no
ErrorCode member makes the resolution itself fail rather than being mapped
to GENERAL_ERROR; every enumerated non-SUCCESS result is surfaced as an
error naming the failing operation and the resolved error-code name, and
SUCCESS (0) returns normally. -/
theorem c8_boundary_error_translation (fn : String) (c : ℤ) (nm : String) :
    _call_function fn 0 = CallResult.success ∧
    (ErrorCode.ofInt c = some nm → c ≠ 0 →
      _call_function fn c
        = CallResult.failure ("Error calling " ++ fn ++ ": " ++ nm)) ∧
    (ErrorCode.ofInt c = none →
      _call_function fn c = CallResult.resolutionError) := by
  refine ⟨by simp [_call_function], fun h hc => ?_, fun h => ?_⟩
  · simp [_call_function, hc, h]
  · have hc : c ≠ 0 := by
      intro h0
      rw [h0] at h
      simp [ErrorCode.ofInt] at h
    simp [_call_function, hc, h]

/-- Witness for C8 at TIMEOUT (11) for a named call and at the unknown
code 99. -/
theorem c8_boundary_error_translation_witness :
    _call_function "ASIOpenCamera" 0 = CallResult.success ∧
    (ErrorCode.ofInt 11 = some "TIMEOUT" ∧ (11 : ℤ) ≠ 0 ∧
      _call_function "ASIOpenCamera" 11
        = CallResult.failure "Error calling ASIOpenCamera: TIMEOUT") ∧
    (ErrorCode.ofInt 99 = none ∧
      _call_function "ASIGetROIFormat" 99 = CallResult.resolutionError) :=
  ⟨(c8_boundary_error_translation "ASIOpenCamera" 11 "TIMEOUT").1,
   ⟨by decide, by decide,
    (c8_boundary_error_translation "ASIOpenCamera" 11 "TIMEOUT").2.1
      (by decide) (by decide)⟩,
   ⟨by decide,
    (c8_boundary_error_translation "ASIGetROIFormat" 99 "TIMEOUT").2.2
      (by decide)⟩⟩

/-- C10: BRIGHTNESS and OFFSET share the integer 5, AUTO_MAX_BRIGHTNESS and
AUTO_TARGET_BRIGHTNESS share 12; resolving value 5 always yields the
canonical name OFFSET (never BRIGHTNESS) and value 12 always yields
AUTO_TARGET_BRIGHTNESS, so a control-capability record with control-type 5
(resp. 12) is decoded with name OFFSET (resp. AUTO_TARGET_BRIGHTNESS) and
its min/max/default interpreted with the adu unit. -/
theorem c10_controltype_aliases (cc : ControlCaps) :
    ControlType.value "BRIGHTNESS" = some 5 ∧
    ControlType.value "OFFSET" = some 5 ∧
    ControlType.value "AUTO_MAX_BRIGHTNESS" = some 12 ∧
    ControlType.value "AUTO_TARGET_BRIGHTNESS" = some 12 ∧
    ControlType.ofInt 5 = some "OFFSET" ∧
    ControlType.ofInt 12 = some "AUTO_TARGET_BRIGHTNESS" ∧
    (cc.control_type = 5 → _parse_caps cc = some
      { name := cc.name
        description := cc.description
        max_value := TypedValue.quantity (cc.max_value : ℚ) AUnit.adu
        min_value := TypedValue.quantity (cc.min_value : ℚ) AUnit.adu
        default_value := TypedValue.quantity (cc.default_value : ℚ) AUnit.adu
        is_auto_supported := decide (cc.is_auto_supported ≠ 0)
        is_writable := decide (cc.is_writable ≠ 0)
        control_type := "OFFSET" }) ∧
    (cc.control_type = 12 → _parse_caps cc = some
      { name := cc.name
        description := cc.description
        max_value := TypedValue.quantity (cc.max_value : ℚ) AUnit.adu
        min_value := TypedValue.quantity (cc.min_value : ℚ) AUnit.adu
        default_value := TypedValue.quantity (cc.default_value : ℚ) AUnit.adu
        is_auto_supported := decide (cc.is_auto_supported ≠ 0)
        is_writable := decide (cc.is_writable ≠ 0)
        control_type := "AUTO_TARGET_BRIGHTNESS" }) := by
  refine ⟨by decide, by decide, by decide, by decide, by decide, by decide,
    fun h5 => ?_, fun h12 => ?_⟩
  · simp [_parse_caps, h5, ControlType.ofInt, _parse_return_value, units_and_scale]
  · simp [_parse_caps, h12, ControlType.ofInt, _parse_return_value, units_and_scale]

/-- Witness for C10 on a concrete control-capability record with
control-type 5. -/
theorem c10_controltype_aliases_witness :
    _parse_caps brightnessCaps = some
      { name := "Brightness"
        description := "Pixel brightness offset"
        max_value := TypedValue.quantity 100 AUnit.adu
        min_value := TypedValue.quantity 0 AUnit.adu
        default_value := TypedValue.quantity 10 AUnit.adu
        is_auto_supported := true
        is_writable := true
        control_type := "OFFSET" } := by
  simpa [brightnessCaps] using (c10_controltype_aliases brightnessCaps).2.2.2.2.2.2.1 rfl
